import Mathlib

/-!
Verification of the WebAuthn login flow (`lib/auth/webauthn/login.go`).

The development shallowly embeds the `LoginFlow.Begin` / `LoginFlow.Finish`
orchestration together with its helpers (`findDeviceByID`,
`setCounterAndTimestamps`, `parseCredentialResponse`, the RP-ID selection
switch, and the `WithDevices` identity decorator).

The storage collaborators behind the `LoginIdentity` interface (device
registry, challenge store, identity binding) are embedded as a deterministic
state record `IdentityState` with map semantics, following the collaborator
contracts of the design (§6): `put` overwrites, `get` reads, `delete` removes.
The external assertion codec/verifier (duo-labs webauthn) is embedded
abstractly: a parsed response carries the data the verifier checks (challenge
echo, bound RP identity, origin, signature validity bit), and `ValidateLogin`
succeeds exactly when all of them match.
-/

set_option maxHeartbeats 1000000

namespace WebauthnLogin

/-- Raw byte strings (credential IDs, key handles, user handles), as lists of
byte values. Only equality of byte strings matters to the login flow. -/
abbrev Bytes := List Nat

/-- `types.U2F`: legacy (U2F) settings; `AppID` is the legacy application
identity. -/
structure U2F where
  appID : String
  deriving DecidableEq

/-- `types.Webauthn`: current-protocol settings; `RPID` is the relying-party
identity, `Disabled` turns the feature off. -/
structure WebauthnSettings where
  disabled : Bool
  rpID : String
  deriving DecidableEq

/-- `types.MFADevice.Device`: the device variant — a legacy U2F device (key
handle + counter) or a current-protocol webauthn device (credential ID +
signature counter). -/
inductive DeviceSpec
| u2f (keyHandle : Bytes) (counter : Nat)
| webauthn (credentialId : Bytes) (signatureCounter : Nat)
  deriving DecidableEq

/-- `types.MFADevice`: one registered authenticator device. -/
structure MFADevice where
  name : String
  lastUsed : Nat
  device : DeviceSpec
  deriving DecidableEq

/-- `wantypes.SessionData` as used by the login flow: the stored challenge
session state (challenge plus the protocol user handle it was issued for). -/
structure SessionData where
  challenge : String
  userId : Bytes
  deriving DecidableEq

/-- `types.WebauthnLocalAuth`: the stored protocol user handle of a user. -/
structure WebauthnLocalAuth where
  userID : Bytes
  deriving DecidableEq

/-- The state behind the `LoginIdentity` storage interface: per-user device
registry, per-user local-auth (user handle) record, and the challenge store
keyed by (user, session-slot identifier). Deterministic map semantics,
modelled from the spec §6 collaborator contracts. -/
structure IdentityState where
  devices : String → List MFADevice
  localAuth : String → Option WebauthnLocalAuth
  sessions : String → String → Option SessionData

/-- `loginSessionID`: the fixed per-user session slot identifier. A fixed
identifier means only one concurrent login challenge per user. -/
def loginSessionID : String := "login"

/-- `GetMFADevices` on the identity state (device registry read). -/
def getMFADevices (st : IdentityState) (user : String) : List MFADevice :=
  st.devices user

/-- Upsert of one device into a device list, keyed by device name (the
backend keys MFA devices by (user, device name); modelled from the spec §6
`put_device` contract). -/
def upsertDeviceInList (devs : List MFADevice) (dev : MFADevice) : List MFADevice :=
  if devs.any fun d => d.name == dev.name then
    devs.map fun d => if d.name = dev.name then dev else d
  else devs ++ [dev]

/-- `UpsertMFADevice` on the identity state (device registry write). -/
def upsertMFADevice (st : IdentityState) (user : String) (dev : MFADevice) : IdentityState :=
  { st with devices := fun u => if u = user then upsertDeviceInList (st.devices u) dev else st.devices u }

/-- `UpsertWebauthnSessionData`: store challenge session state, overwriting
any prior state under the same (user, session-slot) key. -/
def upsertWebauthnSessionData (st : IdentityState) (user sid : String) (sd : SessionData) : IdentityState :=
  { st with sessions := fun u s =>
      if u = user then (if s = sid then some sd else st.sessions u s) else st.sessions u s }

/-- `GetWebauthnSessionData`: read challenge session state; `none` is the
not-found case. -/
def getWebauthnSessionData (st : IdentityState) (user sid : String) : Option SessionData :=
  st.sessions user sid

/-- `DeleteWebauthnSessionData`: remove challenge session state under the
(user, session-slot) key. -/
def deleteWebauthnSessionData (st : IdentityState) (user sid : String) : IdentityState :=
  { st with sessions := fun u s =>
      if u = user then (if s = sid then none else st.sessions u s) else st.sessions u s }

/-- `GetWebauthnLocalAuth`: read the user's stored protocol user handle. -/
def getWebauthnLocalAuth (st : IdentityState) (user : String) : Option WebauthnLocalAuth :=
  st.localAuth user

/-- The credential identifier a device is matched by: the key handle of a
U2F device, the credential ID of a webauthn device (cf. `findDeviceByID`). -/
def deviceKey (dev : MFADevice) : Bytes :=
  match dev.device with
  | .u2f keyHandle _ => keyHandle
  | .webauthn credentialId _ => credentialId

/-- `findDeviceByID` (login.go:266-280): linear scan for the device whose key
handle (U2F) or credential ID (webauthn) is byte-for-byte equal to `id`. -/
def findDeviceByID (devices : List MFADevice) (id : Bytes) : Option MFADevice :=
  match devices with
  | [] => none
  | dev :: rest =>
    match dev.device with
    | .u2f keyHandle _ => if keyHandle = id then some dev else findDeviceByID rest id
    | .webauthn credentialId _ => if credentialId = id then some dev else findDeviceByID rest id

/-- Whether any device in the list is a legacy (U2F) device. -/
def hasU2FDevice (devs : List MFADevice) : Bool :=
  devs.any fun d =>
    match d.device with
    | .u2f _ _ => true
    | .webauthn _ _ => false

/-- The distinct failure conditions of the login flow (spec §7 taxonomy,
mirroring the `trace` errors produced by `Begin`/`Finish`). -/
inductive LoginErr
| disabled
| userRequired
| respRequired
| parseError
| originMismatch
| unknownCredential (rawId : Bytes)
| u2fConfigMissing
| localAuthMissing
| sessionMissing
| verificationFailed
  deriving DecidableEq

/-- `protocol.CollectedClientData` (the parts the flow reads): the claimed
origin and the challenge echoed by the client. -/
structure CollectedClientData where
  origin : String
  challenge : String
  deriving DecidableEq

/-- The response part of a parsed assertion. -/
structure AssertionResponseData where
  collectedClientData : CollectedClientData
  deriving DecidableEq

/-- duo-labs `protocol.ParsedCredentialAssertionData`, abstracted to the data
the login flow and the external verifier consume: the raw credential ID, the
collected client data, and the cryptographic content (`signedRpId` is the RP
identity the authenticator data is bound to, `sigValid` whether the signature
verifies under the device's public key, `signCount` the reported counter). -/
structure ParsedCredentialAssertionData where
  rawId : Bytes
  response : AssertionResponseData
  signedRpId : String
  sigValid : Bool
  signCount : Nat
  cloneWarning : Bool
  deriving DecidableEq

/-- `CredentialAssertionResponse`: the wire response. The external codec
either parses it (`parsed = some p`) or rejects it (`parsed = none`). -/
structure CredentialAssertionResponse where
  parsed : Option ParsedCredentialAssertionData
  deriving DecidableEq

/-- `parseCredentialResponse` (login.go:249-264): delegates to the external
codec; an unparseable response aborts with a parse error. -/
def parseCredentialResponse (resp : CredentialAssertionResponse) :
    Except LoginErr ParsedCredentialAssertionData :=
  match resp.parsed with
  | some p => .ok p
  | none => .error .parseError

/-- Host component of a web origin (scheme stripped, port/path cut off),
computed on the character list of the origin. -/
def originHost (origin : String) : String :=
  let cs := origin.data
  let rest :=
    if ("https://").data.isPrefixOf cs then cs.drop 8
    else if ("http://").data.isPrefixOf cs then cs.drop 7
    else cs
  String.mk (rest.takeWhile fun c => c != '/' && c != ':')

/-- Modelled from the spec: `validateOrigin` (referenced at login.go:172 but
defined outside the provided sources) checks the claimed origin against the
configured RP ID under the scheme/host policy of §4.2 step 2 — the origin
must be a web URL whose host equals the RP ID; failure is the distinct
`OriginMismatch` condition. -/
def validateOrigin (origin rpID : String) : Except LoginErr Unit :=
  if originHost origin = rpID then .ok () else .error .originMismatch

/-- The credential IDs of a device list (allow-list content). -/
def credentialIDsOf (devices : List MFADevice) : List Bytes :=
  devices.map deviceKey

/-- The protocol-level user view handed to the assertion codec/verifier. -/
structure webUser where
  name : String
  id : Bytes
  credentials : List Bytes
  deriving DecidableEq

/-- Modelled from the spec: `newWebUser` (referenced at login.go:125/207 but
defined outside the provided sources) builds the protocol user view: name,
user handle, and the credential IDs of the given devices (`credentialIDOnly`
selects ID-only descriptors in the source; the model keeps IDs either way). -/
def newWebUser (name : String) (webID : Bytes) (credentialIDOnly : Bool)
    (devices : List MFADevice) : webUser :=
  { name := name, id := webID, credentials := credentialIDsOf devices }

/-- duo-labs `webauthn.Credential` as consumed by `Finish`: verified sign
count and the clone warning bit. -/
structure Credential where
  signCount : Nat
  cloneWarning : Bool
  deriving DecidableEq

/-- Model of the external verifier `web.ValidateLogin` (spec §6 `verify`):
succeeds exactly when the response echoes the stored challenge, is bound to
the expected RP identity, claims the expected origin, answers for a
credential of the presented user view, and carries a valid signature. -/
def ValidateLogin (u : webUser) (sd : SessionData) (p : ParsedCredentialAssertionData)
    (rpID origin : String) : Except LoginErr Credential :=
  if p.response.collectedClientData.challenge = sd.challenge
      ∧ p.signedRpId = rpID
      ∧ p.response.collectedClientData.origin = origin
      ∧ p.rawId ∈ u.credentials
      ∧ p.sigValid = true
  then .ok { signCount := p.signCount, cloneWarning := p.cloneWarning }
  else .error .verificationFailed

/-- `setCounterAndTimestamps` (login.go:282-293): write the verified sign
count into the variant's counter field and set the last-used timestamp to
now. (The source's defensive default branch is unreachable here because the
variant type is closed.) -/
def setCounterAndTimestamps (dev : MFADevice) (credential : Credential) (now : Nat) : MFADevice :=
  match dev.device with
  | .u2f keyHandle _ => { dev with device := .u2f keyHandle credential.signCount, lastUsed := now }
  | .webauthn credentialId _ => { dev with device := .webauthn credentialId credential.signCount, lastUsed := now }

/-- `LoginFlow` (login.go:84-90): U2F settings (optional), webauthn settings.
The identity storage is passed to each operation as an `IdentityState`. -/
structure LoginFlow where
  u2f : Option U2F
  webauthn : WebauthnSettings

/-- The RP ID selection switch of `Finish` (login.go:194-200): a U2F device
with no U2F configuration present is a configuration error; a U2F device
otherwise verifies against the legacy App ID; a webauthn device verifies
against the current RP ID. -/
def rpIDSelect (f : LoginFlow) (dev : MFADevice) : Except LoginErr String :=
  match dev.device, f.u2f with
  | .u2f _ _, none => .error .u2fConfigMissing
  | .u2f _ _, some u => .ok u.appID
  | .webauthn _ _, _ => .ok f.webauthn.rpID

/-- The `appid` assertion-extension decision of `Begin` (login.go:113-119):
present (naming the legacy App ID) exactly when U2F settings are present with
a nonempty App ID. -/
def beginAppIDExt (f : LoginFlow) : Option String :=
  match f.u2f with
  | some u => if u.appID = "" then none else some u.appID
  | none => none

/-- Modelled from the spec: `getOrCreateUserWebauthnID` (referenced at
login.go:121 but defined outside the provided sources) resolves the stored
protocol user handle or lazily creates one (`freshID` stands for the
randomly generated handle). -/
def getOrCreateUserWebauthnID (st : IdentityState) (user : String) (freshID : Bytes) :
    Bytes × IdentityState :=
  match st.localAuth user with
  | some wla => (wla.userID, st)
  | none =>
    (freshID,
      { st with localAuth := fun u => if u = user then some { userID := freshID } else st.localAuth u })

/-- `CredentialAssertion` as produced by `Begin` via the codec's
`BeginLogin`: the challenge, the allow-list of credential IDs, and the
optional `appid` assertion extension. -/
structure CredentialAssertion where
  challenge : String
  allowedCredentials : List Bytes
  appIDExtension : Option String
  deriving DecidableEq

/-- `LoginFlow.Begin` (login.go:98-148). Challenge generation and handle
creation are nondeterministic in the source (random values from the codec);
the model takes them as the `chal` and `freshID` parameters. The external
codec's challenge builder (`BeginLogin`) is modelled from the spec §6
`build_challenge` contract: it has no failure case of its own and an empty
allow-list is valid. -/
def Begin (f : LoginFlow) (st : IdentityState) (user : String) (chal : String)
    (freshID : Bytes) : Except LoginErr CredentialAssertion × IdentityState :=
  if f.webauthn.disabled = true then (.error .disabled, st)
  else if user = "" then (.error .userRequired, st)
  else
    let devices := getMFADevices st user
    let idAndState := getOrCreateUserWebauthnID st user freshID
    let assertion : CredentialAssertion :=
      { challenge := chal
        allowedCredentials := credentialIDsOf devices
        appIDExtension := beginAppIDExt f }
    let sd : SessionData := { challenge := chal, userId := idAndState.1 }
    (.ok assertion, upsertWebauthnSessionData idAndState.2 user loginSessionID sd)

/-- `LoginFlow.Finish` (login.go:154-247). `deleteFails` injects a failure of
the final best-effort `DeleteWebauthnSessionData` call (whose error the
source only logs). The construction of the verifier (`newWebAuthn`) is
modelled as total, per the §6 contract. -/
def Finish (f : LoginFlow) (st : IdentityState) (user : String)
    (resp : Option CredentialAssertionResponse) (now : Nat) (deleteFails : Bool) :
    Except LoginErr MFADevice × IdentityState :=
  if f.webauthn.disabled = true then (.error .disabled, st)
  else if user = "" then (.error .userRequired, st)
  else match resp with
  | none => (.error .respRequired, st)
  | some resp =>
    match parseCredentialResponse resp with
    | .error e => (.error e, st)
    | .ok parsedResp =>
      let origin := parsedResp.response.collectedClientData.origin
      match validateOrigin origin f.webauthn.rpID with
      | .error e => (.error e, st)
      | .ok _ =>
        match findDeviceByID (getMFADevices st user) parsedResp.rawId with
        | none => (.error (.unknownCredential parsedResp.rawId), st)
        | some dev =>
          match rpIDSelect f dev with
          | .error e => (.error e, st)
          | .ok rpID =>
            match getWebauthnLocalAuth st user with
            | none => (.error .localAuthMissing, st)
            | some wla =>
              let u := newWebUser user wla.userID false [dev]
              match getWebauthnSessionData st user loginSessionID with
              | none => (.error .sessionMissing, st)
              | some sessionData =>
                match ValidateLogin u sessionData parsedResp rpID origin with
                | .error e => (.error e, st)
                | .ok credential =>
                  let dev2 := setCounterAndTimestamps dev credential now
                  let st2 := upsertMFADevice st user dev2
                  let st3 :=
                    if deleteFails = true then st2
                    else deleteWebauthnSessionData st2 user loginSessionID
                  (.ok dev2, st3)

/-! The `LoginIdentity` interface and the `WithDevices` decorator
(login.go:43-69). For the decorator claim the interface is embedded as a
method table over an abstract storage state `σ`: each method is a state
transformer. `WithDevices` overrides exactly the `GetMFADevices` method with
one returning the fixed device list, and inherits every other method. -/

/-- Storage-level errors surfaced by `LoginIdentity` methods. -/
inductive StoreErr
| notFound
| storageError
  deriving DecidableEq

/-- `LoginIdentity` (login.go:43-51) as a method table over a storage state
`σ` (the `userIDStorage` part contributes the local-auth methods). -/
structure LoginIdentity (σ : Type) where
  getMFADevices : σ → String → Bool → Except StoreErr (List MFADevice) × σ
  upsertMFADevice : σ → String → MFADevice → Except StoreErr Unit × σ
  upsertWebauthnSessionData : σ → String → String → SessionData → Except StoreErr Unit × σ
  getWebauthnSessionData : σ → String → String → Except StoreErr SessionData × σ
  deleteWebauthnSessionData : σ → String → String → Except StoreErr Unit × σ
  getWebauthnLocalAuth : σ → String → Except StoreErr WebauthnLocalAuth × σ
  upsertWebauthnLocalAuth : σ → String → WebauthnLocalAuth → Except StoreErr Unit × σ

/-- `WithDevices` (login.go:53-69): wraps an identity so that every
`GetMFADevices` call answers the fixed list `devs` (with a nil error and no
storage access), delegating all other methods to the wrapped identity. -/
def WithDevices {σ : Type} (identity : LoginIdentity σ) (devs : List MFADevice) :
    LoginIdentity σ :=
  { identity with getMFADevices := fun s _ _ => (.ok devs, s) }

/-! Concrete data used by the witness theorems. -/

/-- Example user name. -/
def alice : String := "alice"

/-- Example user name with no registered devices. -/
def bob : String := "bob"

/-- Example relying-party identity. -/
def exampleRPID : String := "example.com"

/-- Example origin acceptable for `exampleRPID`. -/
def exampleOrigin : String := "https://example.com"

/-- Cross-site origin, not acceptable for `exampleRPID`. -/
def evilOrigin : String := "https://evil.example"

/-- Example legacy application identity. -/
def exampleAppID : String := "https://appid.example.com/appid.json"

/-- Example challenges. -/
def chalA : String := "challenge-a"

/-- A second, distinct example challenge. -/
def chalB : String := "challenge-b"

/-- A registered current-protocol device with credential ID `[1]`. -/
def exampleDevice : MFADevice :=
  { name := "webauthn-dev", lastUsed := 0, device := .webauthn [1] 5 }

/-- A registered legacy (U2F) device with key handle `[2]`. -/
def legacyDevice : MFADevice :=
  { name := "u2f-dev", lastUsed := 0, device := .u2f [2] 3 }

/-- Identity state: `alice` has `exampleDevice`, a stored user handle `[9]`,
and a live login challenge `chalA`; `bob` has nothing. -/
def exampleState : IdentityState :=
  { devices := fun u => if u = alice then [exampleDevice] else []
    localAuth := fun u => if u = alice then some { userID := [9] } else none
    sessions := fun u s =>
      if u = alice then (if s = loginSessionID then some { challenge := chalA, userId := [9] } else none)
      else none }

/-- Identity state: `alice` has the legacy `legacyDevice` instead. -/
def legacyState : IdentityState :=
  { devices := fun u => if u = alice then [legacyDevice] else []
    localAuth := fun u => if u = alice then some { userID := [9] } else none
    sessions := fun u s =>
      if u = alice then (if s = loginSessionID then some { challenge := chalA, userId := [9] } else none)
      else none }

/-- Flow with no U2F settings. -/
def exampleFlow : LoginFlow :=
  { u2f := none, webauthn := { disabled := false, rpID := exampleRPID } }

/-- Flow with U2F settings (legacy App ID configured). -/
def legacyFlow : LoginFlow :=
  { u2f := some { appID := exampleAppID }, webauthn := { disabled := false, rpID := exampleRPID } }

/-- A validly-signed response for `exampleDevice` against challenge `chalA`
and the current RP identity. -/
def exampleParsed : ParsedCredentialAssertionData :=
  { rawId := [1]
    response := { collectedClientData := { origin := exampleOrigin, challenge := chalA } }
    signedRpId := exampleRPID
    sigValid := true
    signCount := 6
    cloneWarning := false }

/-- The wire form of `exampleParsed`. -/
def exampleResp : CredentialAssertionResponse := { parsed := some exampleParsed }

/-- A validly-signed response for `legacyDevice`, bound to the legacy App ID. -/
def legacyParsed : ParsedCredentialAssertionData :=
  { rawId := [2]
    response := { collectedClientData := { origin := exampleOrigin, challenge := chalA } }
    signedRpId := exampleAppID
    sigValid := true
    signCount := 4
    cloneWarning := false }

/-- The wire form of `legacyParsed`. -/
def legacyResp : CredentialAssertionResponse := { parsed := some legacyParsed }

/-- A cryptographically valid response whose claimed origin is `evilOrigin`. -/
def evilParsed : ParsedCredentialAssertionData :=
  { rawId := [1]
    response := { collectedClientData := { origin := evilOrigin, challenge := chalA } }
    signedRpId := exampleRPID
    sigValid := true
    signCount := 6
    cloneWarning := false }

/-- The wire form of `evilParsed`. -/
def evilResp : CredentialAssertionResponse := { parsed := some evilParsed }

/-- A response whose raw credential ID `[9]` matches no registered device. -/
def unknownParsed : ParsedCredentialAssertionData :=
  { rawId := [9]
    response := { collectedClientData := { origin := exampleOrigin, challenge := chalA } }
    signedRpId := exampleRPID
    sigValid := true
    signCount := 6
    cloneWarning := false }

/-- The wire form of `unknownParsed`. -/
def unknownResp : CredentialAssertionResponse := { parsed := some unknownParsed }

/-- The device returned by the successful example `Finish` at time 7: counter
updated to the verified count 6, timestamp updated. -/
def exampleDeviceUpdated : MFADevice :=
  { name := "webauthn-dev", lastUsed := 7, device := .webauthn [1] 6 }

/-- The legacy device after a successful example `Finish` at time 7. -/
def legacyDeviceUpdated : MFADevice :=
  { name := "u2f-dev", lastUsed := 7, device := .u2f [2] 4 }

/-- The assertion returned by the example `Begin` under `legacyFlow` for
`alice` with challenge `chalA`. -/
def legacyBeginAssertion : CredentialAssertion :=
  { challenge := chalA, allowedCredentials := [[1]], appIDExtension := some exampleAppID }

/-! Helper lemmas about devices and device matching. -/

theorem setCounterAndTimestamps_name (dev : MFADevice) (c : Credential) (now : Nat) :
    (setCounterAndTimestamps dev c now).name = dev.name := by
  cases h : dev.device <;> simp [setCounterAndTimestamps, h]

theorem setCounterAndTimestamps_key (dev : MFADevice) (c : Credential) (now : Nat) :
    deviceKey (setCounterAndTimestamps dev c now) = deviceKey dev := by
  cases h : dev.device <;> simp [setCounterAndTimestamps, deviceKey, h]

theorem rpIDSelect_setCounterAndTimestamps (f : LoginFlow) (dev : MFADevice)
    (c : Credential) (now : Nat) :
    rpIDSelect f (setCounterAndTimestamps dev c now) = rpIDSelect f dev := by
  cases h : dev.device <;> cases hu : f.u2f <;>
    simp [rpIDSelect, setCounterAndTimestamps, h, hu]

theorem findDeviceByID_key (devs : List MFADevice) (id : Bytes) (d : MFADevice)
    (h : findDeviceByID devs id = some d) : deviceKey d = id := by
  induction devs with
  | nil => simp [findDeviceByID] at h
  | cons e rest ih =>
    cases he : e.device with
    | u2f kh c =>
      simp only [findDeviceByID, he] at h
      by_cases hk : kh = id
      · rw [if_pos hk] at h
        cases h
        simp [deviceKey, he, hk]
      · rw [if_neg hk] at h
        exact ih h
    | webauthn cid sc =>
      simp only [findDeviceByID, he] at h
      by_cases hk : cid = id
      · rw [if_pos hk] at h
        cases h
        simp [deviceKey, he, hk]
      · rw [if_neg hk] at h
        exact ih h

theorem findDeviceByID_mem (devs : List MFADevice) (id : Bytes) (d : MFADevice)
    (h : findDeviceByID devs id = some d) : d ∈ devs := by
  induction devs with
  | nil => simp [findDeviceByID] at h
  | cons e rest ih =>
    cases he : e.device with
    | u2f kh c =>
      simp only [findDeviceByID, he] at h
      by_cases hk : kh = id
      · rw [if_pos hk] at h
        cases h
        exact List.mem_cons_self _ _
      · rw [if_neg hk] at h
        exact List.mem_cons_of_mem _ (ih h)
    | webauthn cid sc =>
      simp only [findDeviceByID, he] at h
      by_cases hk : cid = id
      · rw [if_pos hk] at h
        cases h
        exact List.mem_cons_self _ _
      · rw [if_neg hk] at h
        exact List.mem_cons_of_mem _ (ih h)

theorem findDeviceByID_cons_key (e : MFADevice) (rest : List MFADevice) (id : Bytes)
    (hk : deviceKey e = id) : findDeviceByID (e :: rest) id = some e := by
  cases he : e.device with
  | u2f kh c =>
    simp only [deviceKey, he] at hk
    simp [findDeviceByID, he, hk]
  | webauthn cid sc =>
    simp only [deviceKey, he] at hk
    simp [findDeviceByID, he, hk]

theorem findDeviceByID_cons_ne (e : MFADevice) (rest : List MFADevice) (id : Bytes)
    (hk : deviceKey e ≠ id) : findDeviceByID (e :: rest) id = findDeviceByID rest id := by
  cases he : e.device with
  | u2f kh c =>
    simp only [deviceKey, he] at hk
    simp [findDeviceByID, he, hk]
  | webauthn cid sc =>
    simp only [deviceKey, he] at hk
    simp [findDeviceByID, he, hk]

theorem findDeviceByID_none_iff (devs : List MFADevice) (id : Bytes) :
    findDeviceByID devs id = none ↔ ∀ d ∈ devs, deviceKey d ≠ id := by
  induction devs with
  | nil => simp [findDeviceByID]
  | cons e rest ih =>
    by_cases hk : deviceKey e = id
    · rw [findDeviceByID_cons_key e rest id hk]
      simp only [List.mem_cons]
      constructor
      · intro h; cases h
      · intro h
        exact absurd hk (h e (Or.inl rfl))
    · rw [findDeviceByID_cons_ne e rest id hk]
      rw [ih]
      simp only [List.mem_cons]
      constructor
      · intro h d hd
        cases hd with
        | inl hh => rw [hh]; exact hk
        | inr hh => exact h d hh
      · intro h d hd
        exact h d (Or.inr hd)

theorem findDeviceByID_upsert (devs : List MFADevice) (id : Bytes) (d dev2 : MFADevice)
    (hfind : findDeviceByID devs id = some d)
    (hname : dev2.name = d.name) (hkey : deviceKey dev2 = deviceKey d) :
    findDeviceByID (upsertDeviceInList devs dev2) id = some dev2 := by
  have hk : deviceKey d = id := findDeviceByID_key devs id d hfind
  have hmem : d ∈ devs := findDeviceByID_mem devs id d hfind
  have hany : (devs.any fun x => x.name == dev2.name) = true := by
    simp only [List.any_eq_true]
    exact ⟨d, hmem, by simp [hname]⟩
  unfold upsertDeviceInList
  rw [if_pos hany]
  clear hany hmem
  induction devs with
  | nil => simp [findDeviceByID] at hfind
  | cons e rest ih =>
    simp only [List.map_cons]
    by_cases hn : e.name = dev2.name
    · rw [if_pos hn]
      exact findDeviceByID_cons_key dev2 _ id (by rw [hkey, hk])
    · rw [if_neg hn]
      by_cases hke : deviceKey e = id
      · rw [findDeviceByID_cons_key e rest id hke] at hfind
        cases hfind
        exact absurd hname.symm hn
      · rw [findDeviceByID_cons_ne e rest id hke] at hfind
        rw [findDeviceByID_cons_ne _ _ _ hke]
        exact ih hfind

/-! Helper lemmas about the small steps of `Finish`. -/

theorem parseCredentialResponse_ok (r : CredentialAssertionResponse)
    (p : ParsedCredentialAssertionData) (h : parseCredentialResponse r = .ok p) :
    r.parsed = some p := by
  unfold parseCredentialResponse at h
  cases hr : r.parsed with
  | none => rw [hr] at h; cases h
  | some q => rw [hr] at h; cases h; rfl

theorem validateOrigin_ok (origin rpID : String) (h : validateOrigin origin rpID = .ok ()) :
    originHost origin = rpID := by
  unfold validateOrigin at h
  by_cases hh : originHost origin = rpID
  · exact hh
  · rw [if_neg hh] at h; cases h

theorem validateOrigin_error (origin rpID : String) (e : LoginErr)
    (h : validateOrigin origin rpID = .error e) : e = .originMismatch := by
  unfold validateOrigin at h
  by_cases hh : originHost origin = rpID
  · rw [if_pos hh] at h; cases h
  · rw [if_neg hh] at h; cases h; rfl

theorem ValidateLogin_ok_elim (u : webUser) (sd : SessionData)
    (p : ParsedCredentialAssertionData) (rpID origin : String) (cred : Credential)
    (h : ValidateLogin u sd p rpID origin = .ok cred) :
    p.response.collectedClientData.challenge = sd.challenge ∧
    p.signedRpId = rpID ∧
    p.response.collectedClientData.origin = origin ∧
    p.rawId ∈ u.credentials ∧
    p.sigValid = true ∧
    cred = { signCount := p.signCount, cloneWarning := p.cloneWarning } := by
  unfold ValidateLogin at h
  split at h
  next hc =>
    cases h
    exact ⟨hc.1, hc.2.1, hc.2.2.1, hc.2.2.2.1, hc.2.2.2.2, rfl⟩
  next hc => cases h

/-- Reduction of `Finish` when the feature is disabled. -/
theorem Finish_run_disabled (f : LoginFlow) (st : IdentityState) (user : String)
    (resp : Option CredentialAssertionResponse) (now : Nat) (df : Bool)
    (hdis : f.webauthn.disabled = true) :
    Finish f st user resp now df = (.error .disabled, st) := by
  unfold Finish
  rw [if_pos hdis]

/-- Reduction of `Finish` at an origin-validation failure: the call aborts
with `originMismatch` and the state — devices, local auth and sessions alike —
is untouched, whatever it contains. -/
theorem Finish_run_origin (f : LoginFlow) (st : IdentityState) (user : String)
    (r : CredentialAssertionResponse) (p : ParsedCredentialAssertionData)
    (now : Nat) (df : Bool)
    (hdis : f.webauthn.disabled = false) (huser : user ≠ "")
    (hp : r.parsed = some p)
    (ho : originHost p.response.collectedClientData.origin ≠ f.webauthn.rpID) :
    Finish f st user (some r) now df = (.error .originMismatch, st) := by
  unfold Finish
  rw [if_neg (by simp [hdis]), if_neg huser]
  simp only [parseCredentialResponse, hp, validateOrigin, if_neg ho]

/-- Reduction of `Finish` at an unmatched credential identifier. -/
theorem Finish_run_unknown (f : LoginFlow) (st : IdentityState) (user : String)
    (r : CredentialAssertionResponse) (p : ParsedCredentialAssertionData)
    (now : Nat) (df : Bool)
    (hdis : f.webauthn.disabled = false) (huser : user ≠ "")
    (hp : r.parsed = some p)
    (hvo : validateOrigin p.response.collectedClientData.origin f.webauthn.rpID = .ok ())
    (hfind : findDeviceByID (st.devices user) p.rawId = none) :
    Finish f st user (some r) now df = (.error (.unknownCredential p.rawId), st) := by
  unfold Finish
  rw [if_neg (by simp [hdis]), if_neg huser]
  simp only [parseCredentialResponse, hp, hvo, getMFADevices, hfind]

/-- Reduction of `Finish` at a legacy device with no U2F configuration. -/
theorem Finish_run_u2fConfigMissing (f : LoginFlow) (st : IdentityState) (user : String)
    (r : CredentialAssertionResponse) (p : ParsedCredentialAssertionData)
    (d : MFADevice) (kh : Bytes) (c : Nat) (now : Nat) (df : Bool)
    (hdis : f.webauthn.disabled = false) (huser : user ≠ "")
    (hp : r.parsed = some p)
    (hvo : validateOrigin p.response.collectedClientData.origin f.webauthn.rpID = .ok ())
    (hfind : findDeviceByID (st.devices user) p.rawId = some d)
    (hdev : d.device = .u2f kh c) (hu2f : f.u2f = none) :
    Finish f st user (some r) now df = (.error .u2fConfigMissing, st) := by
  unfold Finish
  rw [if_neg (by simp [hdis]), if_neg huser]
  simp only [parseCredentialResponse, hp, hvo, getMFADevices, hfind, rpIDSelect, hdev, hu2f]

/-- Reduction of `Finish` at an absent challenge session state. -/
theorem Finish_run_sessionMissing (f : LoginFlow) (st : IdentityState) (user : String)
    (r : CredentialAssertionResponse) (p : ParsedCredentialAssertionData)
    (d : MFADevice) (rpID : String) (wla : WebauthnLocalAuth) (now : Nat) (df : Bool)
    (hdis : f.webauthn.disabled = false) (huser : user ≠ "")
    (hp : r.parsed = some p)
    (hvo : validateOrigin p.response.collectedClientData.origin f.webauthn.rpID = .ok ())
    (hfind : findDeviceByID (st.devices user) p.rawId = some d)
    (hrp : rpIDSelect f d = .ok rpID)
    (hwla : st.localAuth user = some wla)
    (hsd : st.sessions user loginSessionID = none) :
    Finish f st user (some r) now df = (.error .sessionMissing, st) := by
  unfold Finish
  rw [if_neg (by simp [hdis]), if_neg huser]
  simp only [parseCredentialResponse, hp, hvo, getMFADevices, hfind, hrp,
    getWebauthnLocalAuth, hwla, getWebauthnSessionData, hsd]

/-- Every run of `Finish` either fails leaving the state exactly as it was,
or succeeds. -/
theorem Finish_shape (f : LoginFlow) (st : IdentityState) (user : String)
    (resp : Option CredentialAssertionResponse) (now : Nat) (df : Bool) :
    (∃ e, Finish f st user resp now df = (.error e, st)) ∨
    (∃ dev st2, Finish f st user resp now df = (.ok dev, st2)) := by
  rcases hP : Finish f st user resp now df with ⟨res, stOut⟩
  unfold Finish at hP
  by_cases hdis : f.webauthn.disabled = true
  · rw [if_pos hdis] at hP
    exact Or.inl ⟨_, hP.symm⟩
  rw [if_neg hdis] at hP
  by_cases huser : user = ""
  · rw [if_pos huser] at hP
    exact Or.inl ⟨_, hP.symm⟩
  rw [if_neg huser] at hP
  cases resp with
  | none => exact Or.inl ⟨_, hP.symm⟩
  | some r =>
    simp only [getMFADevices, getWebauthnLocalAuth, getWebauthnSessionData] at hP
    repeat' split at hP
    all_goals first
      | exact Or.inl ⟨_, hP.symm⟩
      | exact Or.inr ⟨_, _, hP.symm⟩

/-- Anatomy of a successful `Finish`: every check passed, the returned device
is the matched device with updated counter and timestamp, and the final state
is the device upsert followed (unless deletion fails) by the session delete. -/
theorem Finish_ok_elim (f : LoginFlow) (st : IdentityState) (user : String)
    (resp : Option CredentialAssertionResponse) (now : Nat) (df : Bool)
    (dev : MFADevice) (st2 : IdentityState)
    (h : Finish f st user resp now df = (.ok dev, st2)) :
    ∃ r p d rpID wla sd cred,
      resp = some r ∧
      r.parsed = some p ∧
      f.webauthn.disabled = false ∧
      user ≠ "" ∧
      validateOrigin p.response.collectedClientData.origin f.webauthn.rpID = .ok () ∧
      findDeviceByID (st.devices user) p.rawId = some d ∧
      rpIDSelect f d = .ok rpID ∧
      st.localAuth user = some wla ∧
      st.sessions user loginSessionID = some sd ∧
      ValidateLogin (newWebUser user wla.userID false [d]) sd p rpID
        p.response.collectedClientData.origin = .ok cred ∧
      dev = setCounterAndTimestamps d cred now ∧
      st2 = (if df = true then upsertMFADevice st user (setCounterAndTimestamps d cred now)
             else deleteWebauthnSessionData
               (upsertMFADevice st user (setCounterAndTimestamps d cred now)) user loginSessionID) := by
  unfold Finish at h
  by_cases hdis : f.webauthn.disabled = true
  · rw [if_pos hdis] at h
    exact absurd h (by simp)
  rw [if_neg hdis] at h
  by_cases huser : user = ""
  · rw [if_pos huser] at h
    exact absurd h (by simp)
  rw [if_neg huser] at h
  cases resp with
  | none => exact absurd h (by simp)
  | some r =>
    simp only [getMFADevices, getWebauthnLocalAuth, getWebauthnSessionData] at h
    split at h
    · exact absurd h (by simp)
    split at h
    · exact absurd h (by simp)
    split at h
    · exact absurd h (by simp)
    split at h
    · exact absurd h (by simp)
    split at h
    · exact absurd h (by simp)
    split at h
    · exact absurd h (by simp)
    split at h
    · exact absurd h (by simp)
    rename_i x1 p hp x2 uu hvo x3 d hfind x4 rpID hrp x5 wla hwla x6 sd hsd x7 cred hval
    simp only [Prod.mk.injEq, Except.ok.injEq] at h
    obtain ⟨hdev, hst⟩ := h
    refine ⟨r, p, d, rpID, wla, sd, cred, rfl, parseCredentialResponse_ok r p hp,
      by simp at hdis; exact hdis, huser, hvo, hfind, hrp, hwla, hsd, hval, hdev.symm, ?_⟩
    exact hst.symm

/-! Helper lemmas about `Begin` and the state operations. -/

theorem getOrCreateUserWebauthnID_sessions (st : IdentityState) (user : String) (freshID : Bytes) :
    ((getOrCreateUserWebauthnID st user freshID).2).sessions = st.sessions := by
  unfold getOrCreateUserWebauthnID
  cases h : st.localAuth user <;> simp

theorem upsertWebauthnSessionData_get_self (st : IdentityState) (user sid : String) (sd : SessionData) :
    (upsertWebauthnSessionData st user sid sd).sessions user sid = some sd := by
  simp [upsertWebauthnSessionData]

theorem deleteWebauthnSessionData_get_self (st : IdentityState) (user sid : String) :
    (deleteWebauthnSessionData st user sid).sessions user sid = none := by
  simp [deleteWebauthnSessionData]

theorem upsertMFADevice_devices_self (st : IdentityState) (user : String) (dev : MFADevice) :
    (upsertMFADevice st user dev).devices user = upsertDeviceInList (st.devices user) dev := by
  simp [upsertMFADevice]

/-- Reduction of `Begin` when the preconditions hold: it always succeeds, the
assertion lists the user's credential IDs and carries the `appid` extension
decision, and the session slot (user, `loginSessionID`) is overwritten with
the fresh challenge. -/
theorem Begin_run (f : LoginFlow) (st : IdentityState) (user : String) (chal : String)
    (freshID : Bytes) (hdis : f.webauthn.disabled = false) (huser : user ≠ "") :
    Begin f st user chal freshID =
      (.ok { challenge := chal
             allowedCredentials := credentialIDsOf (st.devices user)
             appIDExtension := beginAppIDExt f },
       upsertWebauthnSessionData (getOrCreateUserWebauthnID st user freshID).2 user loginSessionID
         { challenge := chal, userId := (getOrCreateUserWebauthnID st user freshID).1 }) := by
  unfold Begin
  rw [if_neg (by simp [hdis]), if_neg huser]
  rfl

/-- A successful `Begin` leaves the fixed session slot holding exactly the
new challenge. -/
theorem Begin_ok_session (f : LoginFlow) (st : IdentityState) (user : String) (chal : String)
    (freshID : Bytes) (a : CredentialAssertion) (st1 : IdentityState)
    (hdis : f.webauthn.disabled = false) (huser : user ≠ "")
    (h : Begin f st user chal freshID = (.ok a, st1)) :
    st1.sessions user loginSessionID =
      some { challenge := chal, userId := (getOrCreateUserWebauthnID st user freshID).1 } := by
  rw [Begin_run f st user chal freshID hdis huser] at h
  simp only [Prod.mk.injEq, Except.ok.injEq] at h
  rw [← h.2]
  exact upsertWebauthnSessionData_get_self _ _ _ _

/-! The claim theorems and their witnesses. -/

/-- Claim C2: a `Finish` call that returns an error — disabled feature, empty
user, absent response, parse error, origin mismatch, unknown credential,
missing U2F configuration, missing user handle, missing session state, or
verification failure — performs no device-registry mutation: the identity
state after the call, and in particular its device registry, is exactly the
state before the call; the counter/timestamp update (`UpsertMFADevice`) is
reached only after `ValidateLogin` has succeeded. -/
theorem finish_error_no_mutation (f : LoginFlow) (st : IdentityState) (user : String)
    (resp : Option CredentialAssertionResponse) (now : Nat) (df : Bool) (e : LoginErr)
    (h : (Finish f st user resp now df).1 = .error e) :
    (Finish f st user resp now df).2.devices = st.devices ∧
    (Finish f st user resp now df).2 = st := by
  rcases Finish_shape f st user resp now df with ⟨e2, hE⟩ | ⟨dev, st2, hO⟩
  · rw [hE]
    exact ⟨rfl, rfl⟩
  · rw [hO] at h
    exact absurd h (by simp)

/-- Witness for C2 at a concrete failing call (unknown credential). -/
theorem finish_error_no_mutation_witness :
    (Finish exampleFlow exampleState alice (some unknownResp) 0 false).1 =
      .error (.unknownCredential [9]) ∧
    (Finish exampleFlow exampleState alice (some unknownResp) 0 false).2 = exampleState :=
  ⟨rfl, (finish_error_no_mutation exampleFlow exampleState alice (some unknownResp) 0 false
      (.unknownCredential [9]) rfl).2⟩

/-- Claim C3: a `Finish` call whose parsed response claims an origin that is
not acceptable for the configured relying-party identity fails with the
distinct `originMismatch` error and is returned to the caller — even when the
signature is cryptographically valid (`sigValid` is unconstrained) — and the
check happens before device lookup, session load and verification: the
result holds for every identity state, whatever devices, local auth or
sessions it contains, and the state is untouched. -/
theorem finish_origin_guard (f : LoginFlow) (st : IdentityState) (user : String)
    (r : CredentialAssertionResponse) (p : ParsedCredentialAssertionData)
    (now : Nat) (df : Bool)
    (hdis : f.webauthn.disabled = false) (huser : user ≠ "")
    (hp : r.parsed = some p)
    (ho : originHost p.response.collectedClientData.origin ≠ f.webauthn.rpID) :
    Finish f st user (some r) now df = (.error .originMismatch, st) :=
  Finish_run_origin f st user r p now df hdis huser hp ho

/-- Witness for C3: the spec's example — origin `https://evil.example`
against RP identity `example.com`, signature valid. -/
theorem finish_origin_guard_witness :
    evilParsed.sigValid = true ∧
    Finish exampleFlow exampleState alice (some evilResp) 0 false =
      (.error .originMismatch, exampleState) :=
  ⟨rfl, finish_origin_guard exampleFlow exampleState alice evilResp evilParsed 0 false
    rfl (by decide) rfl (by decide)⟩

/-- Claim C8: device matching is an exact-equality linear scan — a device
matches only by byte-for-byte equality of its key handle (legacy) or
credential ID (current) with the response's raw identifier — and a `Finish`
call (past preconditions, parse and origin check) whose raw identifier
matches no registered device of the user fails with `unknownCredential`
carrying that raw identifier, regardless of the response's validity. -/
theorem finish_unknown_credential :
    (∀ devs id, findDeviceByID devs id = none ↔ ∀ d ∈ devs, deviceKey d ≠ id) ∧
    (∀ f st user r p now df,
      f.webauthn.disabled = false → user ≠ "" → r.parsed = some p →
      validateOrigin p.response.collectedClientData.origin f.webauthn.rpID = .ok () →
      (∀ d ∈ st.devices user, deviceKey d ≠ p.rawId) →
      Finish f st user (some r) now df = (.error (.unknownCredential p.rawId), st)) := by
  constructor
  · exact findDeviceByID_none_iff
  · intro f st user r p now df hdis huser hp hvo hnone
    exact Finish_run_unknown f st user r p now df hdis huser hp hvo
      ((findDeviceByID_none_iff _ _).mpr hnone)

/-- Witness for C8: raw identifier `[9]` matches no device of `alice`, so the
call fails with `unknownCredential [9]` although the response is valid. -/
theorem finish_unknown_credential_witness :
    unknownParsed.sigValid = true ∧
    Finish exampleFlow exampleState alice (some unknownResp) 0 false =
      (.error (.unknownCredential [9]), exampleState) :=
  ⟨rfl, finish_unknown_credential.2 exampleFlow exampleState alice unknownResp unknownParsed 0 false
    rfl (by decide) rfl rfl (by decide)⟩

/-- Claim C9: for a user with an empty registered device set (feature
enabled, user non-empty), `Begin` succeeds and the returned challenge has an
empty allowed-credential list — having no devices is never an error of
`Begin`. -/
theorem begin_no_devices_ok (f : LoginFlow) (st : IdentityState) (user : String)
    (chal : String) (freshID : Bytes)
    (hdis : f.webauthn.disabled = false) (huser : user ≠ "")
    (hnone : st.devices user = []) :
    (Begin f st user chal freshID).1 =
      .ok { challenge := chal, allowedCredentials := [], appIDExtension := beginAppIDExt f } := by
  rw [Begin_run f st user chal freshID hdis huser]
  simp [credentialIDsOf, hnone]

/-- Witness for C9: `bob` has no devices, `Begin` succeeds with an empty
allow-list. -/
theorem begin_no_devices_ok_witness :
    (Begin exampleFlow exampleState bob chalA [4]).1 =
      .ok { challenge := chalA, allowedCredentials := [], appIDExtension := none } := by
  have h := begin_no_devices_ok exampleFlow exampleState bob chalA [4] rfl (by decide) rfl
  simpa [beginAppIDExt, exampleFlow] using h

/-- Claim C1: a challenge session backs at most one successful `Finish` —
after a `Finish(user, response)` returns success (with an honest session
store), a second `Finish` for the same user with the same valid response
fails with `sessionMissing`, because the first success deleted the session
state under the fixed slot. -/
theorem finish_single_use (f : LoginFlow) (st : IdentityState) (user : String)
    (r : CredentialAssertionResponse) (now now2 : Nat) (dev : MFADevice) (st2 : IdentityState)
    (h : Finish f st user (some r) now false = (.ok dev, st2)) :
    (Finish f st2 user (some r) now2 false).1 = .error .sessionMissing := by
  obtain ⟨r2, p, d, rpID, wla, sd, cred, hr, hp, hdis, huser, hvo, hfind, hrp, hwla, hsd, hval,
    hdev, hst⟩ := Finish_ok_elim f st user (some r) now false dev st2 h
  cases hr
  have hst2 : st2 = deleteWebauthnSessionData
      (upsertMFADevice st user (setCounterAndTimestamps d cred now)) user loginSessionID := by
    simpa using hst
  have hfind2 : findDeviceByID (st2.devices user) p.rawId =
      some (setCounterAndTimestamps d cred now) := by
    rw [hst2]
    show findDeviceByID
      ((upsertMFADevice st user (setCounterAndTimestamps d cred now)).devices user) p.rawId = _
    rw [upsertMFADevice_devices_self]
    exact findDeviceByID_upsert (st.devices user) p.rawId d _ hfind
      (setCounterAndTimestamps_name d cred now) (setCounterAndTimestamps_key d cred now)
  have hrp2 : rpIDSelect f (setCounterAndTimestamps d cred now) = .ok rpID := by
    rw [rpIDSelect_setCounterAndTimestamps]
    exact hrp
  have hwla2 : st2.localAuth user = some wla := by
    rw [hst2]
    exact hwla
  have hsd2 : st2.sessions user loginSessionID = none := by
    rw [hst2]
    exact deleteWebauthnSessionData_get_self _ _ _
  rw [Finish_run_sessionMissing f st2 user r p (setCounterAndTimestamps d cred now) rpID wla
    now2 false hdis huser hp hvo hfind2 hrp2 hwla2 hsd2]

/-- Witness for C1: after the successful example `Finish`, replaying the same
valid response fails with `sessionMissing`. -/
theorem finish_single_use_witness :
    (Finish exampleFlow
        (Finish exampleFlow exampleState alice (some exampleResp) 7 false).2
        alice (some exampleResp) 8 false).1 = .error .sessionMissing :=
  finish_single_use exampleFlow exampleState alice exampleResp 7 8 exampleDeviceUpdated
    (Finish exampleFlow exampleState alice (some exampleResp) 7 false).2 rfl

/-- Claim C4: at most one live challenge per user — a successful `Begin`
always writes the new challenge under the fixed slot (user, `loginSessionID`),
unconditionally overwriting whatever was there, so that after two `Begin`
calls for the same user a `Finish` answering the first (superseded) challenge
fails. -/
theorem begin_single_slot_supersedes :
    (∀ f st user chal freshID a st1,
      f.webauthn.disabled = false → user ≠ "" →
      Begin f st user chal freshID = (.ok a, st1) →
      st1.sessions user loginSessionID =
        some { challenge := chal, userId := (getOrCreateUserWebauthnID st user freshID).1 }) ∧
    (∀ f st user c1 c2 fr1 fr2 a1 a2 st1 st2 r p now df,
      f.webauthn.disabled = false → user ≠ "" →
      Begin f st user c1 fr1 = (.ok a1, st1) →
      Begin f st1 user c2 fr2 = (.ok a2, st2) →
      r.parsed = some p →
      p.response.collectedClientData.challenge = c1 →
      c1 ≠ c2 →
      ∃ e, (Finish f st2 user (some r) now df).1 = .error e) := by
  constructor
  · intro f st user chal freshID a st1 hdis huser h
    exact Begin_ok_session f st user chal freshID a st1 hdis huser h
  · intro f st user c1 c2 fr1 fr2 a1 a2 st1 st2 r p now df hdis huser h1 h2 hp hchal hne
    have hsess : st2.sessions user loginSessionID =
        some { challenge := c2, userId := (getOrCreateUserWebauthnID st1 user fr2).1 } :=
      Begin_ok_session f st1 user c2 fr2 a2 st2 hdis huser h2
    rcases hP : Finish f st2 user (some r) now df with ⟨res, stOut⟩
    cases res with
    | error e => exact ⟨e, rfl⟩
    | ok dev =>
      exfalso
      obtain ⟨r2, p2, d, rpID, wla, sd, cred, hr, hp2, -, -, -, -, -, -, hsd, hval, -, -⟩ :=
        Finish_ok_elim f st2 user (some r) now df dev stOut hP
      cases hr
      rw [hp] at hp2
      cases hp2
      rw [hsess] at hsd
      cases hsd
      have hc := (ValidateLogin_ok_elim _ _ _ _ _ _ hval).1
      rw [hchal] at hc
      exact hne hc

/-- Witness for C4: the slot after a concrete `Begin` holds its challenge,
and answering the first of two `Begin` challenges fails. -/
theorem begin_single_slot_supersedes_witness :
    ((Begin exampleFlow exampleState alice chalB [5]).2.sessions alice loginSessionID =
      some { challenge := chalB, userId := (getOrCreateUserWebauthnID exampleState alice [5]).1 }) ∧
    (∃ e, (Finish exampleFlow
        (Begin exampleFlow (Begin exampleFlow exampleState alice chalA [5]).2 alice chalB [6]).2
        alice (some exampleResp) 0 false).1 = .error e) :=
  ⟨begin_single_slot_supersedes.1 exampleFlow exampleState alice chalB [5]
      { challenge := chalB, allowedCredentials := [[1]], appIDExtension := none }
      (Begin exampleFlow exampleState alice chalB [5]).2 rfl (by decide) rfl,
   begin_single_slot_supersedes.2 exampleFlow exampleState alice chalA chalB [5] [6]
      { challenge := chalA, allowedCredentials := [[1]], appIDExtension := none }
      { challenge := chalB, allowedCredentials := [[1]], appIDExtension := none }
      (Begin exampleFlow exampleState alice chalA [5]).2
      (Begin exampleFlow (Begin exampleFlow exampleState alice chalA [5]).2 alice chalB [6]).2
      exampleResp exampleParsed 0 false rfl (by decide) rfl rfl rfl rfl (by decide)⟩

/-- Claim C5: verification-mode selection by device kind — a legacy (U2F)
device with no U2F configuration aborts `Finish` with the configuration
error before the user handle, session state or verification are consulted; a
legacy device with U2F configuration is verified against the legacy App ID
(a success implies the response was bound to the App ID); a current-protocol
device is verified against the current RP ID. -/
theorem finish_legacy_rp_binding :
    (∀ f st user r p d kh c now df,
      f.webauthn.disabled = false → user ≠ "" → r.parsed = some p →
      validateOrigin p.response.collectedClientData.origin f.webauthn.rpID = .ok () →
      findDeviceByID (st.devices user) p.rawId = some d →
      d.device = .u2f kh c → f.u2f = none →
      Finish f st user (some r) now df = (.error .u2fConfigMissing, st)) ∧
    (∀ f ucfg st user r p d kh c now df dev st2,
      f.u2f = some ucfg → r.parsed = some p →
      findDeviceByID (st.devices user) p.rawId = some d →
      d.device = .u2f kh c →
      Finish f st user (some r) now df = (.ok dev, st2) →
      p.signedRpId = ucfg.appID) ∧
    (∀ f st user r p d cid sc now df dev st2,
      r.parsed = some p →
      findDeviceByID (st.devices user) p.rawId = some d →
      d.device = .webauthn cid sc →
      Finish f st user (some r) now df = (.ok dev, st2) →
      p.signedRpId = f.webauthn.rpID) := by
  refine ⟨?_, ?_, ?_⟩
  · intro f st user r p d kh c now df hdis huser hp hvo hfind hdev hu2f
    exact Finish_run_u2fConfigMissing f st user r p d kh c now df hdis huser hp hvo hfind hdev hu2f
  · intro f ucfg st user r p d kh c now df dev st2 hu2f hp hfind hdev h
    obtain ⟨r2, p2, d2, rpID, wla, sd, cred, hr, hp2, -, -, -, hfind2, hrp, -, -, hval, -, -⟩ :=
      Finish_ok_elim f st user (some r) now df dev st2 h
    cases hr
    rw [hp] at hp2
    cases hp2
    rw [hfind] at hfind2
    cases hfind2
    simp only [rpIDSelect, hdev, hu2f, Except.ok.injEq] at hrp
    have hsr := (ValidateLogin_ok_elim _ _ _ _ _ _ hval).2.1
    rw [hsr, ← hrp]
  · intro f st user r p d cid sc now df dev st2 hp hfind hdev h
    obtain ⟨r2, p2, d2, rpID, wla, sd, cred, hr, hp2, -, -, -, hfind2, hrp, -, -, hval, -, -⟩ :=
      Finish_ok_elim f st user (some r) now df dev st2 h
    cases hr
    rw [hp] at hp2
    cases hp2
    rw [hfind] at hfind2
    cases hfind2
    simp only [rpIDSelect, hdev, Except.ok.injEq] at hrp
    have hsr := (ValidateLogin_ok_elim _ _ _ _ _ _ hval).2.1
    rw [hsr, ← hrp]

/-- Witness for C5: the same legacy device/response pair fails with the
configuration error when no U2F settings are present and verifies against
the legacy App ID when they are; the current-protocol success is bound to
the current RP ID. -/
theorem finish_legacy_rp_binding_witness :
    (Finish exampleFlow legacyState alice (some legacyResp) 0 false =
      (.error .u2fConfigMissing, legacyState)) ∧
    legacyParsed.signedRpId = exampleAppID ∧
    exampleParsed.signedRpId = exampleRPID :=
  ⟨finish_legacy_rp_binding.1 exampleFlow legacyState alice legacyResp legacyParsed
      legacyDevice [2] 3 0 false rfl (by decide) rfl rfl rfl rfl rfl,
   finish_legacy_rp_binding.2.1 legacyFlow { appID := exampleAppID } legacyState alice
      legacyResp legacyParsed legacyDevice [2] 3 7 false legacyDeviceUpdated
      (Finish legacyFlow legacyState alice (some legacyResp) 7 false).2 rfl rfl rfl rfl rfl,
   finish_legacy_rp_binding.2.2 exampleFlow exampleState alice exampleResp exampleParsed
      exampleDevice [1] 5 7 false exampleDeviceUpdated
      (Finish exampleFlow exampleState alice (some exampleResp) 7 false).2 rfl rfl rfl rfl⟩

/-- Counterexample to claim C6 as stated: with U2F settings configured
(nonempty App ID), `Begin` adds the `appid` extension although the user's
fetched device set contains no legacy device whatsoever — the source decides
on configuration alone (login.go:114), never inspecting the devices for the
extension decision. -/
theorem begin_appid_ext_counterexample :
    hasU2FDevice (getMFADevices exampleState alice) = false ∧
    (Begin legacyFlow exampleState alice chalA [3]).1 = .ok legacyBeginAssertion := by
  exact ⟨rfl, rfl⟩

/-- Claim C6 (amended): the generated challenge carries the legacy
compatibility (`appid`) extension naming the configured legacy application
identity if and only if U2F settings are present with a nonempty App ID —
independent of whether any legacy device exists in the user's device set. -/
theorem begin_appid_ext_config_only (f : LoginFlow) (st : IdentityState) (user : String)
    (chal : String) (freshID : Bytes) (a : CredentialAssertion) (st1 : IdentityState)
    (hdis : f.webauthn.disabled = false) (huser : user ≠ "")
    (h : Begin f st user chal freshID = (.ok a, st1)) :
    a.appIDExtension = beginAppIDExt f ∧
    (∀ u, f.u2f = some u → u.appID ≠ "" → a.appIDExtension = some u.appID) ∧
    (f.u2f = none → a.appIDExtension = none) ∧
    (∀ u, f.u2f = some u → u.appID = "" → a.appIDExtension = none) := by
  rw [Begin_run f st user chal freshID hdis huser] at h
  simp only [Prod.mk.injEq, Except.ok.injEq] at h
  obtain ⟨ha, -⟩ := h
  subst ha
  refine ⟨rfl, ?_, ?_, ?_⟩
  · intro u hu hne
    simp [beginAppIDExt, hu, hne]
  · intro hu
    simp [beginAppIDExt, hu]
  · intro u hu he
    simp [beginAppIDExt, hu, he]

/-- Witness for the amended C6 at the configured example flow. -/
theorem begin_appid_ext_config_only_witness :
    legacyBeginAssertion.appIDExtension = some exampleAppID :=
  (begin_appid_ext_config_only legacyFlow exampleState alice chalA [3]
      legacyBeginAssertion (Begin legacyFlow exampleState alice chalA [3]).2
      rfl (by decide) rfl).2.1 { appID := exampleAppID } rfl (by decide)

/-- Counterexample to claim C7 as stated: a failing `Finish` (unknown
credential) does not delete the challenge session state — the fixed slot
still holds the live challenge after the call, so deletion does not happen
on "both success and failure paths". -/
theorem finish_failure_keeps_session_counterexample :
    (Finish exampleFlow exampleState alice (some unknownResp) 0 false).1 =
      .error (.unknownCredential [9]) ∧
    (Finish exampleFlow exampleState alice (some unknownResp) 0 false).2.sessions alice
        loginSessionID = some { challenge := chalA, userId := [9] } := by
  exact ⟨rfl, rfl⟩

/-- Claim C7 (amended): `Finish` deletes the challenge session state only on
its success path — on every failure path the session store is left exactly
as it was — and on the success path a failure of the deletion itself is
non-fatal: it never changes the call's result (a successful verification
still returns the device when deletion fails). -/
theorem finish_delete_success_only :
    (∀ f st user resp now,
      (Finish f st user resp now true).1 = (Finish f st user resp now false).1) ∧
    (∀ f st user resp now dev st2,
      Finish f st user resp now false = (.ok dev, st2) →
      st2.sessions user loginSessionID = none) ∧
    (∀ f st user resp now df e,
      (Finish f st user resp now df).1 = .error e →
      (Finish f st user resp now df).2.sessions = st.sessions) := by
  refine ⟨?_, ?_, ?_⟩
  · intro f st user resp now
    unfold Finish
    dsimp only
    repeat' split
    all_goals rfl
  · intro f st user resp now dev st2 h
    obtain ⟨r, p, d, rpID, wla, sd, cred, -, -, -, -, -, -, -, -, -, -, -, hst⟩ :=
      Finish_ok_elim f st user resp now false dev st2 h
    have hst2 : st2 = deleteWebauthnSessionData
        (upsertMFADevice st user (setCounterAndTimestamps d cred now)) user loginSessionID := by
      simpa using hst
    rw [hst2]
    exact deleteWebauthnSessionData_get_self _ _ _
  · intro f st user resp now df e h
    rcases Finish_shape f st user resp now df with ⟨e2, hE⟩ | ⟨dev, st2, hO⟩
    · rw [hE]
    · rw [hO] at h
      exact absurd h (by simp)

/-- Witness for the amended C7: deletion failure does not change the result
of the successful example call; the successful call empties the slot; the
failing call leaves the session store untouched. -/
theorem finish_delete_success_only_witness :
    ((Finish exampleFlow exampleState alice (some exampleResp) 7 true).1 =
      (Finish exampleFlow exampleState alice (some exampleResp) 7 false).1) ∧
    ((Finish exampleFlow exampleState alice (some exampleResp) 7 false).2.sessions alice
        loginSessionID = none) ∧
    ((Finish exampleFlow exampleState alice (some unknownResp) 0 false).2.sessions =
      exampleState.sessions) :=
  ⟨finish_delete_success_only.1 exampleFlow exampleState alice (some exampleResp) 7,
   finish_delete_success_only.2.1 exampleFlow exampleState alice (some exampleResp) 7
     exampleDeviceUpdated (Finish exampleFlow exampleState alice (some exampleResp) 7 false).2 rfl,
   finish_delete_success_only.2.2 exampleFlow exampleState alice (some unknownResp) 0 false
     (.unknownCredential [9]) rfl⟩

/-- Claim C10: `WithDevices` returns an identity whose `GetMFADevices`
answers exactly the fixed device list with a nil error for every user and
`withSecrets` flag — without consulting the wrapped identity's device storage
(the storage state is returned untouched and the answer does not depend on
it) — while all other `LoginIdentity` methods are the wrapped identity's own,
unchanged. -/
theorem withDevices_fixed_list (σ : Type) (identity : LoginIdentity σ)
    (devs : List MFADevice) (s : σ) (user : String) (withSecrets : Bool) :
    (WithDevices identity devs).getMFADevices s user withSecrets = (.ok devs, s) ∧
    (WithDevices identity devs).upsertMFADevice = identity.upsertMFADevice ∧
    (WithDevices identity devs).upsertWebauthnSessionData = identity.upsertWebauthnSessionData ∧
    (WithDevices identity devs).getWebauthnSessionData = identity.getWebauthnSessionData ∧
    (WithDevices identity devs).deleteWebauthnSessionData = identity.deleteWebauthnSessionData ∧
    (WithDevices identity devs).getWebauthnLocalAuth = identity.getWebauthnLocalAuth ∧
    (WithDevices identity devs).upsertWebauthnLocalAuth = identity.upsertWebauthnLocalAuth :=
  ⟨rfl, rfl, rfl, rfl, rfl, rfl, rfl⟩

end WebauthnLogin
